import Mathlib

/-!
Shallow embedding of the manifesto-futarchy-ui client layer:

* `src/hooks/useInitializeProposal.ts` — the `initializeProposal` hook;
* `src/unnamed/part_000` — the `AutocratProvider` context
  (`createAmm`, `swap`, `setProgramVersion`, DAO selection, the proposal
  list view and the token-resolution effect).

External calls (wallet adapter, Solana RPC, Anchor program clients, the
AMM client) are modelled by explicit environment records whose fields
supply the values those calls would return; each run of an operation is a
pure function from the UI state, the environment and the arguments to an
outcome together with the ordered trace of external actions performed.
-/

namespace Futarchy

/-- Solana public key, identified by its base58 rendering (the source only
ever compares keys via `toString`/`equals`). -/
structure PubKey where
  b58 : String
deriving DecidableEq, Repr

/-- Token record as held in a `TokensDict` (only the fields the excerpted
code touches). -/
structure Token where
  publicKey : PubKey
  symbol : String
deriving DecidableEq, Repr

/-- Opaque payload of a proposal instruction; the hook passes it through
without inspecting it. -/
structure ProposalInstruction where
  payload : Nat
deriving DecidableEq, Repr

/-- Argument record of `program.methods.initializeProposal` as built at
`useInitializeProposal.ts:31-37`. -/
structure InitProposalArgs where
  descriptionUrl : String
  instruction : ProposalInstruction
  passLpTokensToLock : Nat
  failLpTokensToLock : Nat
  nonce : Nat
deriving DecidableEq, Repr

/-- Account record of the `initializeProposal` method
(`useInitializeProposal.ts:38-44`). `failAmm` and `passAmm` are free
identifiers in the source file (declared nowhere in it); they are modelled
as ambient values supplied by the environment. -/
structure InitProposalAccounts where
  proposal : PubKey
  dao : Option PubKey
  failAmm : PubKey
  passAmm : PubKey
  proposer : PubKey
deriving DecidableEq, Repr

/-- Instructions the hook can place in a transaction: the Anchor
account-creation instruction (`program.account.proposal.createInstruction`)
and the `initializeProposal` method instruction. -/
inductive Instr where
  | createAccount (newAccount : PubKey) (space : Nat)
  | initProposal (args : InitProposalArgs) (accounts : InitProposalAccounts)
deriving DecidableEq, Repr

/-- Web3 `Transaction` with the fields the hook sets. `keypairSigners`
records calls to `tx.sign(...)`; `walletSigned` records that the wallet's
`signAllTransactions` has processed the transaction. -/
structure Transaction where
  instructions : List Instr
  feePayer : Option PubKey
  recentBlockhash : Option String
  keypairSigners : List PubKey
  walletSigned : Bool
deriving DecidableEq, Repr

/-- External actions the hook performs, in order. -/
inductive Action where
  | generateKeypair (k : PubKey)
  | getLatestBlockhash (blockhash : String) (lastValidBlockHeight : Nat)
  | signAllTransactions (txs : List Transaction)
  | sendRawTransaction (tx : Transaction) (skipPreflight : Bool) (signature : String)
  | confirmTransaction (signature : String) (blockhash : String)
      (lastValidBlockHeight : Nat) (commitment : String)
deriving DecidableEq, Repr

/-- Wallet adapter state: `publicKey` may be absent, and the
`signAllTransactions` capability may be absent. -/
structure WalletState where
  publicKey : Option PubKey
  signAllTransactions : Bool
deriving DecidableEq, Repr

/-- Values the hook reads from `useConnection`/`useAutocrat`/`useWallet`
(`useInitializeProposal.ts:7-12`). -/
structure HookDeps where
  wallet : Option WalletState
  baseToken : Option Token
  quoteToken : Option Token
  daoTreasuryKey : Option PubKey
  daoKey : Option PubKey
  programPresent : Bool
deriving DecidableEq, Repr

/-- Responses of the external world during one run of the hook: the
freshly generated keypair, the latest blockhash data, the signature
returned by `sendRawTransaction`, and the ambient `failAmm`/`passAmm`
values. -/
structure InitEnv where
  newKeypair : PubKey
  blockhash : String
  lastValidBlockHeight : Nat
  sigFor : String
  failAmm : PubKey
  passAmm : PubKey

/-- Result of a run of `initializeProposal`: either the guard returned
early (resolving to `undefined`) or the run completed. -/
inductive InitOutcome where
  | skipped
  | completed
deriving DecidableEq, Repr

/-- Guard of `useInitializeProposal.ts:16-25`: the run proceeds only when
the wallet is connected with a public key and `signAllTransactions`, both
tokens, the treasury key and the program are resolved. -/
def initReady (d : HookDeps) : Bool :=
  (d.wallet.elim false fun w => w.publicKey.isSome && w.signAllTransactions)
    && d.baseToken.isSome && d.quoteToken.isSome
    && d.daoTreasuryKey.isSome && d.programPresent

/-- The `initializeProposal` callback (`useInitializeProposal.ts:14-72`),
as a pure function returning the outcome and the ordered list of external
actions performed. -/
def initializeProposal (d : HookDeps) (env : InitEnv) (url : String)
    (instr : ProposalInstruction) : InitOutcome × List Action :=
  match d.wallet with
  | none => (.skipped, [])
  | some w =>
    match w.publicKey with
    | none => (.skipped, [])
    | some pk =>
      if !w.signAllTransactions || d.baseToken.isNone || d.quoteToken.isNone
          || d.daoTreasuryKey.isNone || !d.programPresent then
        (.skipped, [])
      else
        let proposalKeypair := env.newKeypair
        let createIx := Instr.createAccount proposalKeypair 1500
        let initIx := Instr.initProposal
          { descriptionUrl := url, instruction := instr,
            passLpTokensToLock := 0, failLpTokensToLock := 0, nonce := 0 }
          { proposal := proposalKeypair, dao := d.daoKey,
            failAmm := env.failAmm, passAmm := env.passAmm, proposer := pk }
        let builtTx : Transaction :=
          { instructions := [createIx, initIx],
            feePayer := some pk,
            recentBlockhash := some env.blockhash,
            keypairSigners := [proposalKeypair],
            walletSigned := false }
        let signedTxs := [builtTx].map fun t => { t with walletSigned := true }
        (.completed,
          [Action.generateKeypair proposalKeypair,
           Action.getLatestBlockhash env.blockhash env.lastValidBlockHeight,
           Action.signAllTransactions signedTxs]
          ++ signedTxs.flatMap fun t =>
               [Action.sendRawTransaction t true env.sigFor,
                Action.confirmTransaction env.sigFor env.blockhash
                  env.lastValidBlockHeight "confirmed"])

/-- Tokens dictionary (a JS object keyed by token slugs such as
`baseToken`, `quoteToken`, `usdc`, `musdc`), modelled as an ordered
association list as `Object.entries` would enumerate it. -/
abbrev TokensDict := List (String × Token)

/-- Property access `dict.key` on a tokens dictionary. -/
def dictGet (d : TokensDict) (k : String) : Option Token :=
  d.lookup k

/-- Object spread `\x7b ...a, ...b \x7d`: keys of `a` first (values
overridden by `b` where present), then keys of `b` not already in `a`,
in order. -/
def jsMerge (a b : TokensDict) : TokensDict :=
  (a.map fun kv => (kv.1, (b.lookup kv.1).getD kv.2))
    ++ b.filter fun kv => (a.lookup kv.1).isNone

/-- DAO account state, with the fields the excerpted code reads. -/
structure DaoState where
  treasury : PubKey
  tokenMint : PubKey
  twapInitialObservation : Nat
  twapMaxObservationChangePerUpdate : Nat
deriving DecidableEq, Repr

/-- Element of the fetched DAO list (`autocratProgram.account.dao.all()`):
an account public key together with its decoded state. -/
structure DaoListItem where
  publicKey : PubKey
  account : DaoState
deriving DecidableEq, Repr

/-- Errors surfaced to the client: `sdk` errors raised by a wrapped
SDK/RPC call, and `made` errors constructed by this client's own code via
`new Error(msg)`. -/
inductive Err where
  | sdk (code : Nat)
  | made (msg : String)
deriving DecidableEq, Repr

/-- Whether an error originates from a wrapped SDK/RPC call rather than
from this client's own code. -/
def Err.isSdk : Err → Bool
  | .sdk _ => true
  | .made _ => false

/-- Mint account as fetched by `autocratProgram.account.mint.fetch`. -/
structure Mint where
  supply : Nat
deriving DecidableEq, Repr

/-- AMM account as returned by `ammClient.getAmm`. -/
structure Amm where
  publicKey : PubKey
deriving DecidableEq, Repr

/-- Swap direction passed through to `ammClient.swap`. -/
inductive SwapType where
  | buy
  | sell
deriving DecidableEq, Repr

/-- Seed of a program-derived address: `Buffer.from(string)` or
`publicKey.toBuffer()`. -/
inductive Seed where
  | str (s : String)
  | key (k : PubKey)
deriving DecidableEq, Repr

/-- AMM program id imported from the SDK constants (its concrete value is
outside the excerpted files; only its identity matters here). -/
def AMM_PROGRAM_ID : PubKey := ⟨"AMM_PROGRAM_ID"⟩

/-- External actions performed by the provider's `createAmm`/`swap`. -/
inductive CAction where
  | fetchMint (mint : PubKey)
  | findPDA (seeds : List Seed) (programId : PubKey) (result : PubKey)
  | clientCreateAmm (proposalAddress : PubKey) (base : PubKey) (quote : PubKey)
      (twapInitial : Nat) (pof : String) (uri : String) (proposalNumber : Nat)
      (baseMint : PubKey) (quoteMint : PubKey) (a : Int) (twapMax : Nat)
  | logError (context : String) (e : Err)
  | clientGetAmm (amm : PubKey)
  | clientSwap (amm : PubKey) (swapType : SwapType)
      (inputAmount : Int) (outputAmountMin : Int)
deriving DecidableEq, Repr

/-- Result of a run of `createAmm` or `swap`: the guard returned early
(resolving to `undefined`), the run completed normally, or it threw. -/
inductive COutcome where
  | earlyReturn
  | ok
  | threw (e : Err)
deriving DecidableEq, Repr

/-- Values the provider methods close over (`part_000`): the Anchor
program (by its program id), the resolved DAO state, the stored tokens
dictionary and the provider wallet's presence. -/
structure ProviderDeps where
  autocratProgram : Option PubKey
  daoState : Option DaoState
  daoTokens : Option TokensDict
  providerWallet : Bool
deriving DecidableEq, Repr

/-- Responses of the external world during one run of `createAmm`/`swap`:
the PDA derivation, the mint fetch, the AMM-client calls. An `Except.error`
field means the corresponding awaited call rejects with that error. -/
structure AmmEnv where
  findProgramAddress : List Seed → PubKey → PubKey
  mintFetch : PubKey → Except Err Mint
  createAmmResult : Except Err Unit
  getAmm : PubKey → Except Err Amm
  swapResult : Except Err Unit

/-- Guard shared by `createAmm` (`part_000:244-252`) and `swap`
(`part_000:290-298`): program, DAO state, both tokens and the provider
wallet must be resolved. -/
def ammReady (p : ProviderDeps) : Bool :=
  p.autocratProgram.isSome && p.daoState.isSome
    && (p.daoTokens.bind (dictGet · "baseToken")).isSome
    && (p.daoTokens.bind (dictGet · "quoteToken")).isSome
    && p.providerWallet

/-- The provider's `createAmm` method (`part_000:237-287`), as a pure
function returning the outcome and the ordered list of external actions
performed. -/
def createAmm (p : ProviderDeps) (env : AmmEnv) (pof uri : String)
    (proposalNumber : Nat) (_symbol : String) (a : Int) :
    COutcome × List CAction :=
  match p.autocratProgram, p.daoState,
      p.daoTokens.bind (dictGet · "baseToken"),
      p.daoTokens.bind (dictGet · "quoteToken"), p.providerWallet with
  | some programId, some daoState, some baseToken, some quoteToken, true =>
    if baseToken.publicKey == quoteToken.publicKey then
      (.threw (Err.made "Base and quote mints must be different"), [])
    else
      match env.mintFetch baseToken.publicKey with
      | .error e => (.threw e, [CAction.fetchMint baseToken.publicKey])
      | .ok baseMint =>
        if baseMint.supply != 0 then
          (.threw (Err.made "Base mint must have a supply of 0"),
           [CAction.fetchMint baseToken.publicKey])
        else
          let seeds := [Seed.str "proposal", Seed.str (toString proposalNumber)]
          let proposalAddress := env.findProgramAddress seeds programId
          let callActions :=
            [CAction.fetchMint baseToken.publicKey,
             CAction.findPDA seeds programId proposalAddress,
             CAction.clientCreateAmm proposalAddress
               baseToken.publicKey quoteToken.publicKey
               daoState.twapInitialObservation pof uri proposalNumber
               baseToken.publicKey quoteToken.publicKey a
               daoState.twapMaxObservationChangePerUpdate]
          match env.createAmmResult with
          | .error e =>
            (.threw e, callActions ++ [CAction.logError "Error creating AMM:" e])
          | .ok _ => (.ok, callActions)
  | _, _, _, _, _ => (.earlyReturn, [])

/-- The provider's `swap` method (`part_000:289-317`), as a pure function
returning the outcome and the ordered list of external actions
performed. -/
def swap (p : ProviderDeps) (env : AmmEnv) (swapType : SwapType)
    (inputAmount outputAmountMin : Int) : COutcome × List CAction :=
  match p.autocratProgram, p.daoState,
      p.daoTokens.bind (dictGet · "baseToken"),
      p.daoTokens.bind (dictGet · "quoteToken"), p.providerWallet with
  | some _programId, some _daoState, some baseToken, some quoteToken, true =>
    let seeds := [Seed.str "amm__", Seed.key baseToken.publicKey,
                  Seed.key quoteToken.publicKey]
    let ammPublicKey := env.findProgramAddress seeds AMM_PROGRAM_ID
    let pdaAction := CAction.findPDA seeds AMM_PROGRAM_ID ammPublicKey
    match env.getAmm ammPublicKey with
    | .error e => (.threw e, [pdaAction, CAction.clientGetAmm ammPublicKey])
    | .ok amm =>
      match env.swapResult with
      | .error e =>
        (.threw e,
         [pdaAction, CAction.clientGetAmm ammPublicKey,
          CAction.clientSwap amm.publicKey swapType inputAmount outputAmountMin,
          CAction.logError "Error swapping tokens:" e])
      | .ok _ =>
        (.ok,
         [pdaAction, CAction.clientGetAmm ammPublicKey,
          CAction.clientSwap amm.publicKey swapType inputAmount outputAmountMin])
  | _, _, _, _, _ => (.earlyReturn, [])

/-- DAO selection (`part_000:99-104`): find the fetched DAO whose public
key renders equal to the hard-coded `DAOS[0].publicKey` (`daosHeadKey`
here, since the `DAOS` constant lives outside the excerpted files);
otherwise fall back to the first fetched DAO, if any. -/
def selectedDao (daos : Option (List DaoListItem)) (daosHeadKey : PubKey) :
    Option DaoListItem :=
  match daos with
  | none => none
  | some ds =>
    match ds.find? (fun dao => dao.publicKey == daosHeadKey) with
    | some dao => some dao
    | none => ds.head?

/-- The context's `daoKey` (`part_000:106`). -/
def daoKey (daos : Option (List DaoListItem)) (daosHeadKey : PubKey) :
    Option PubKey :=
  (selectedDao daos daosHeadKey).map (·.publicKey)

/-- The context's `daoTreasuryKey` (`part_000:108`). -/
def daoTreasuryKey (daos : Option (List DaoListItem)) (daosHeadKey : PubKey) :
    Option PubKey :=
  (selectedDao daos daosHeadKey).map (·.account.treasury)

/-- The context's `daoState` (`part_000:110`). -/
def daoStateView (daos : Option (List DaoListItem)) (daosHeadKey : PubKey) :
    Option DaoState :=
  (selectedDao daos daosHeadKey).map (·.account)

/-- Program version record (the `AUTOCRAT_VERSIONS` entries live outside
the excerpted files; only their identity matters here). -/
structure ProgramVersion where
  label : String
deriving DecidableEq, Repr

/-- JS array indexing `xs[n]`: `undefined` for a negative or
out-of-range index. -/
def jsIndex (xs : List ProgramVersion) (n : Int) : Option ProgramVersion :=
  if 0 ≤ n then xs.get? n.toNat else none

/-- The version passed to the stored setter by the context's
`setProgramVersion` (`part_000:330-333`):
`n < AUTOCRAT_VERSIONS.length ? AUTOCRAT_VERSIONS[n] : AUTOCRAT_VERSIONS[0]`,
with the versions array as a parameter. -/
def setProgramVersionArg (versions : List ProgramVersion) (n : Int) :
    Option ProgramVersion :=
  if n < (versions.length : Int) then jsIndex versions n else jsIndex versions 0

/-- Proposal account state, with the field the excerpted code reads. -/
structure ProposalAccount where
  number : Nat
deriving DecidableEq, Repr

/-- Element of the fetched proposal list
(`autocratProgram.account.proposal.all()`); `title` and `description`
are optional fields the underlying record may or may not carry. -/
structure RawProposal where
  publicKey : PubKey
  account : ProposalAccount
  title : Option String
  description : Option String
deriving DecidableEq, Repr

/-- Proposal entry exposed by the context after the effect at
`part_000:224-235` has filled in `title` and `description`. -/
structure ProposalView where
  publicKey : PubKey
  account : ProposalAccount
  title : String
  description : String
deriving DecidableEq, Repr

/-- Comparator order of `part_000:225-227`: `a` is placed before `b`
exactly when the callback returns `-1`, i.e. when
`!(a.account.number < b.account.number)`. -/
def propLe (a b : RawProposal) : Bool :=
  b.account.number ≤ a.account.number

/-- Spread `\x7b title: ..., description: '', ...prop \x7d`
(`part_000:229-233`): the record's own fields win over the defaults. -/
def exposeProposal (p : RawProposal) : ProposalView :=
  { publicKey := p.publicKey,
    account := p.account,
    title := p.title.getD ("Proposal " ++ toString p.account.number),
    description := p.description.getD "" }

/-- The proposals effect (`part_000:224-235`): sort `allProposals || []`
with the descending-number comparator, then map in the default title and
description. -/
def proposalsView (allProposals : Option (List RawProposal)) :
    List ProposalView :=
  ((allProposals.getD []).mergeSort propLe).map exposeProposal

/-- JS runtime errors this client can hit (reading a property of
`undefined`). -/
inductive JsError where
  | typeError
deriving DecidableEq, Repr

/-- The token-resolution effect (`part_000:191-222`), run whenever its
dependencies change. Returns `Except.error` when the effect throws,
`Except.ok (some d)` when it calls `setDaoTokens d`, and `Except.ok none`
when it completes without updating the stored tokens. `staticTokens` and
the per-network `defaultTokens` are constants from outside the excerpted
files, passed as parameters. -/
def tokenResolutionEffect (daoState? : Option DaoState)
    (defaultTokens staticTokens daoTokens : TokensDict)
    (label network : String) : Except JsError (Option TokensDict) :=
  match daoState? with
  | none => .ok none
  | some ds =>
    let daoTokenPublicKey := ds.tokenMint
    let daoToken := defaultTokens.filter
      fun t => t.2.publicKey == daoTokenPublicKey
    match daoToken.head? with
    | none => .error JsError.typeError
    | some kv =>
      let baseToken : TokensDict := [("baseToken", kv.2)]
      let quoteToken : TokensDict :=
        if label != "V0.3" && network == "devnet" then
          (dictGet defaultTokens "musdc").elim [] fun t => [("quoteToken", t)]
        else
          (dictGet defaultTokens "usdc").elim [] fun t => [("quoteToken", t)]
      let usedTokens := jsMerge (jsMerge staticTokens baseToken) quoteToken
      let mergedTokens := jsMerge daoTokens usedTokens
      if mergedTokens ≠ usedTokens then .ok (some mergedTokens) else .ok none

/-- Predicate picking out the blockhash-fetch action. -/
def Action.isBlockhashFetch : Action → Bool
  | .getLatestBlockhash _ _ => true
  | _ => false

/-- Concrete connected wallet, for witnesses. -/
def sampleWallet : WalletState := ⟨some ⟨"wallet-pk"⟩, true⟩

/-- Concrete fully resolved hook dependencies, for witnesses. -/
def sampleDeps : HookDeps :=
  ⟨some sampleWallet, some ⟨⟨"base-mint"⟩, "BASE"⟩, some ⟨⟨"quote-mint"⟩, "QUOTE"⟩,
   some ⟨"treasury"⟩, some ⟨"dao"⟩, true⟩

/-- Concrete hook dependencies with no wallet connected, for witnesses. -/
def sampleDepsUnready : HookDeps :=
  ⟨none, some ⟨⟨"base-mint"⟩, "BASE"⟩, some ⟨⟨"quote-mint"⟩, "QUOTE"⟩,
   some ⟨"treasury"⟩, some ⟨"dao"⟩, true⟩

/-- Concrete hook environment, for witnesses. -/
def sampleInitEnv : InitEnv :=
  ⟨⟨"proposal-kp"⟩, "blockhash-1", 55, "sig-1", ⟨"fail-amm"⟩, ⟨"pass-amm"⟩⟩

/-- Concrete fully resolved provider dependencies, for witnesses. -/
def sampleProvider : ProviderDeps :=
  ⟨some ⟨"autocrat-prog"⟩, some ⟨⟨"treasury"⟩, ⟨"dao-mint"⟩, 7, 9⟩,
   some [("baseToken", ⟨⟨"base-mint"⟩, "BASE"⟩),
         ("quoteToken", ⟨⟨"quote-mint"⟩, "QUOTE"⟩)], true⟩

/-- Concrete provider dependencies with no provider wallet, for
witnesses. -/
def sampleProviderUnready : ProviderDeps :=
  ⟨some ⟨"autocrat-prog"⟩, some ⟨⟨"treasury"⟩, ⟨"dao-mint"⟩, 7, 9⟩,
   some [("baseToken", ⟨⟨"base-mint"⟩, "BASE"⟩),
         ("quoteToken", ⟨⟨"quote-mint"⟩, "QUOTE"⟩)], false⟩

/-- Concrete provider dependencies whose base and quote tokens share one
mint, for witnesses. -/
def sampleProviderEqualMints : ProviderDeps :=
  ⟨some ⟨"autocrat-prog"⟩, some ⟨⟨"treasury"⟩, ⟨"dao-mint"⟩, 7, 9⟩,
   some [("baseToken", ⟨⟨"base-mint"⟩, "BASE"⟩),
         ("quoteToken", ⟨⟨"base-mint"⟩, "QUOTE"⟩)], true⟩

/-- Concrete AMM environment in which no external call rejects, for
witnesses. -/
def benignAmmEnv : AmmEnv :=
  ⟨fun _ _ => ⟨"derived-pda"⟩, fun _ => .ok ⟨0⟩, .ok (),
   fun k => .ok ⟨k⟩, .ok ()⟩

/-- Concrete AMM environment whose AMM-client calls reject with SDK
errors, for witnesses. -/
def failingAmmEnv : AmmEnv :=
  ⟨fun _ _ => ⟨"derived-pda"⟩, fun _ => .ok ⟨0⟩, .error (.sdk 7),
   fun k => .ok ⟨k⟩, .error (.sdk 8)⟩

/-- C1: when the preconditions of `initializeProposal` hold (connected
wallet with a public key and `signAllTransactions`, resolved base and
quote tokens, treasury key and program), the hook performs exactly this
sequence: generate a keypair, fetch the latest blockhash, have the wallet
sign exactly one transaction — whose instructions are exactly the
account-creation instruction for the fresh keypair with size 1500
followed by the proposal-initialization instruction carrying the given
`url` and `instruction` — submit that signed transaction, and await its
confirmation. -/
theorem initializeProposal_single_tx_two_instrs
    (d : HookDeps) (env : InitEnv) (url : String) (instr : ProposalInstruction)
    (w : WalletState) (pk : PubKey)
    (hw : d.wallet = some w) (hpk : w.publicKey = some pk)
    (hsign : w.signAllTransactions = true)
    (hb : d.baseToken.isSome) (hq : d.quoteToken.isSome)
    (ht : d.daoTreasuryKey.isSome) (hp : d.programPresent = true) :
    initializeProposal d env url instr =
      (InitOutcome.completed,
        [Action.generateKeypair env.newKeypair,
         Action.getLatestBlockhash env.blockhash env.lastValidBlockHeight,
         Action.signAllTransactions
           [{ instructions :=
                [Instr.createAccount env.newKeypair 1500,
                 Instr.initProposal
                   { descriptionUrl := url, instruction := instr,
                     passLpTokensToLock := 0, failLpTokensToLock := 0,
                     nonce := 0 }
                   { proposal := env.newKeypair, dao := d.daoKey,
                     failAmm := env.failAmm, passAmm := env.passAmm,
                     proposer := pk }],
              feePayer := some pk,
              recentBlockhash := some env.blockhash,
              keypairSigners := [env.newKeypair],
              walletSigned := true }],
         Action.sendRawTransaction
           { instructions :=
                [Instr.createAccount env.newKeypair 1500,
                 Instr.initProposal
                   { descriptionUrl := url, instruction := instr,
                     passLpTokensToLock := 0, failLpTokensToLock := 0,
                     nonce := 0 }
                   { proposal := env.newKeypair, dao := d.daoKey,
                     failAmm := env.failAmm, passAmm := env.passAmm,
                     proposer := pk }],
              feePayer := some pk,
              recentBlockhash := some env.blockhash,
              keypairSigners := [env.newKeypair],
              walletSigned := true }
           true env.sigFor,
         Action.confirmTransaction env.sigFor env.blockhash
           env.lastValidBlockHeight "confirmed"]) := by
  obtain ⟨bt, hbt⟩ := Option.isSome_iff_exists.mp hb
  obtain ⟨qt, hqt⟩ := Option.isSome_iff_exists.mp hq
  obtain ⟨tr, htr⟩ := Option.isSome_iff_exists.mp ht
  simp [initializeProposal, hw, hpk, hsign, hbt, hqt, htr, hp]

/-- Witness for C1 at concrete inputs. -/
theorem initializeProposal_single_tx_two_instrs_witness :
    initializeProposal sampleDeps sampleInitEnv "https://example.org" ⟨42⟩ =
      (InitOutcome.completed,
        [Action.generateKeypair sampleInitEnv.newKeypair,
         Action.getLatestBlockhash sampleInitEnv.blockhash
           sampleInitEnv.lastValidBlockHeight,
         Action.signAllTransactions
           [{ instructions :=
                [Instr.createAccount sampleInitEnv.newKeypair 1500,
                 Instr.initProposal
                   { descriptionUrl := "https://example.org",
                     instruction := ⟨42⟩,
                     passLpTokensToLock := 0, failLpTokensToLock := 0,
                     nonce := 0 }
                   { proposal := sampleInitEnv.newKeypair,
                     dao := sampleDeps.daoKey,
                     failAmm := sampleInitEnv.failAmm,
                     passAmm := sampleInitEnv.passAmm,
                     proposer := ⟨"wallet-pk"⟩ }],
              feePayer := some ⟨"wallet-pk"⟩,
              recentBlockhash := some sampleInitEnv.blockhash,
              keypairSigners := [sampleInitEnv.newKeypair],
              walletSigned := true }],
         Action.sendRawTransaction
           { instructions :=
                [Instr.createAccount sampleInitEnv.newKeypair 1500,
                 Instr.initProposal
                   { descriptionUrl := "https://example.org",
                     instruction := ⟨42⟩,
                     passLpTokensToLock := 0, failLpTokensToLock := 0,
                     nonce := 0 }
                   { proposal := sampleInitEnv.newKeypair,
                     dao := sampleDeps.daoKey,
                     failAmm := sampleInitEnv.failAmm,
                     passAmm := sampleInitEnv.passAmm,
                     proposer := ⟨"wallet-pk"⟩ }],
              feePayer := some ⟨"wallet-pk"⟩,
              recentBlockhash := some sampleInitEnv.blockhash,
              keypairSigners := [sampleInitEnv.newKeypair],
              walletSigned := true }
           true sampleInitEnv.sigFor,
         Action.confirmTransaction sampleInitEnv.sigFor
           sampleInitEnv.blockhash sampleInitEnv.lastValidBlockHeight
           "confirmed"]) :=
  initializeProposal_single_tx_two_instrs sampleDeps sampleInitEnv
    "https://example.org" ⟨42⟩ sampleWallet ⟨"wallet-pk"⟩
    rfl rfl rfl rfl rfl rfl rfl

/-- C2: whenever the guard of `initializeProposal`, `createAmm` or `swap`
finds the wallet disconnected or some required DAO/token/program state
unresolved, the operation returns immediately with an empty action trace:
no transaction is built or submitted, the AMM client is never called, and
nothing is thrown. -/
theorem unready_guards_return_without_actions
    (d : HookDeps) (env : InitEnv) (url : String) (instr : ProposalInstruction)
    (p : ProviderDeps) (aenv : AmmEnv) (pof uri symbol : String)
    (proposalNumber : Nat) (a inputAmount outputAmountMin : Int)
    (st : SwapType) :
    (initReady d = false →
      initializeProposal d env url instr = (InitOutcome.skipped, [])) ∧
    (ammReady p = false →
      createAmm p aenv pof uri proposalNumber symbol a =
        (COutcome.earlyReturn, [])) ∧
    (ammReady p = false →
      swap p aenv st inputAmount outputAmountMin =
        (COutcome.earlyReturn, [])) := by
  refine ⟨fun h => ?_, fun h => ?_, fun h => ?_⟩
  · cases hw : d.wallet with
    | none => simp [initializeProposal, hw]
    | some w =>
      cases hpk : w.publicKey with
      | none => simp [initializeProposal, hw, hpk]
      | some pk =>
        simp only [initReady, hw, hpk, Option.elim_some, Option.isSome_some,
          Bool.true_and] at h
        simp only [Bool.and_eq_false_iff] at h
        simp [initializeProposal, hw, hpk]
        rcases h with ((((h | h) | h) | h) | h) <;>
          simp_all [Option.isNone_iff_eq_none, Option.not_isSome_iff_eq_none]
  · cases h1 : p.autocratProgram <;> cases h2 : p.daoState <;>
      cases h3 : p.daoTokens.bind (dictGet · "baseToken") <;>
      cases h4 : p.daoTokens.bind (dictGet · "quoteToken") <;>
      cases h5 : p.providerWallet <;>
      simp [ammReady, h1, h2, h3, h4, h5] at h <;>
      simp [createAmm, h1, h2, h3, h4, h5]
  · cases h1 : p.autocratProgram <;> cases h2 : p.daoState <;>
      cases h3 : p.daoTokens.bind (dictGet · "baseToken") <;>
      cases h4 : p.daoTokens.bind (dictGet · "quoteToken") <;>
      cases h5 : p.providerWallet <;>
      simp [ammReady, h1, h2, h3, h4, h5] at h <;>
      simp [swap, h1, h2, h3, h4, h5]

/-- Witness for C2 at concrete unready inputs. -/
theorem unready_guards_return_without_actions_witness :
    initializeProposal sampleDepsUnready sampleInitEnv "https://example.org"
      ⟨42⟩ = (InitOutcome.skipped, []) ∧
    createAmm sampleProviderUnready benignAmmEnv "pof" "uri" 1 "SYM" 0 =
      (COutcome.earlyReturn, []) ∧
    swap sampleProviderUnready benignAmmEnv SwapType.buy 10 1 =
      (COutcome.earlyReturn, []) := by
  have h := unready_guards_return_without_actions sampleDepsUnready
    sampleInitEnv "https://example.org" ⟨42⟩ sampleProviderUnready
    benignAmmEnv "pof" "uri" "SYM" 1 0 10 1 SwapType.buy
  exact ⟨h.1 rfl, h.2.1 rfl, h.2.2 rfl⟩

/-- C3: with the preconditions resolved, an error raised by the delegated
AMM-client call is logged and rethrown unchanged by `createAmm` and by
`swap`; errors of the other awaited calls (`mint.fetch`, `getAmm`) also
propagate to the caller unchanged, so neither method swallows an error,
substitutes a different one, or recovers. -/
theorem amm_client_errors_logged_and_rethrown
    (p : ProviderDeps) (env : AmmEnv) (pof uri symbol : String)
    (proposalNumber : Nat) (a inputAmount outputAmountMin : Int)
    (st : SwapType) (programId : PubKey) (ds : DaoState) (bt qt : Token)
    (hprog : p.autocratProgram = some programId)
    (hds : p.daoState = some ds)
    (hbt : p.daoTokens.bind (dictGet · "baseToken") = some bt)
    (hqt : p.daoTokens.bind (dictGet · "quoteToken") = some qt)
    (hw : p.providerWallet = true) :
    (∀ e, bt.publicKey ≠ qt.publicKey →
      env.mintFetch bt.publicKey = .error e →
      (createAmm p env pof uri proposalNumber symbol a).1 =
        COutcome.threw e) ∧
    (∀ e m, bt.publicKey ≠ qt.publicKey →
      env.mintFetch bt.publicKey = .ok m → m.supply = 0 →
      env.createAmmResult = .error e →
      (createAmm p env pof uri proposalNumber symbol a).1 =
          COutcome.threw e ∧
        CAction.logError "Error creating AMM:" e ∈
          (createAmm p env pof uri proposalNumber symbol a).2) ∧
    (∀ e, env.getAmm (env.findProgramAddress
        [Seed.str "amm__", Seed.key bt.publicKey, Seed.key qt.publicKey]
        AMM_PROGRAM_ID) = .error e →
      (swap p env st inputAmount outputAmountMin).1 = COutcome.threw e) ∧
    (∀ e amm, env.getAmm (env.findProgramAddress
        [Seed.str "amm__", Seed.key bt.publicKey, Seed.key qt.publicKey]
        AMM_PROGRAM_ID) = .ok amm →
      env.swapResult = .error e →
      (swap p env st inputAmount outputAmountMin).1 = COutcome.threw e ∧
        CAction.logError "Error swapping tokens:" e ∈
          (swap p env st inputAmount outputAmountMin).2) := by
  refine ⟨fun e hne hf => ?_, fun e m hne hf hsup hc => ?_,
    fun e hg => ?_, fun e amm hg hs => ?_⟩
  · simp [createAmm, hprog, hds, hbt, hqt, hw, hne, hf]
  · simp [createAmm, hprog, hds, hbt, hqt, hw, hne, hf, hsup, hc]
  · simp [swap, hprog, hds, hbt, hqt, hw, hg]
  · simp [swap, hprog, hds, hbt, hqt, hw, hg, hs]

/-- Witness for C3 at concrete inputs: both AMM-client calls reject with
SDK errors, which are rethrown unchanged and logged. -/
theorem amm_client_errors_logged_and_rethrown_witness :
    ((createAmm sampleProvider failingAmmEnv "pof" "uri" 1 "SYM" 0).1 =
        COutcome.threw (Err.sdk 7) ∧
      CAction.logError "Error creating AMM:" (Err.sdk 7) ∈
        (createAmm sampleProvider failingAmmEnv "pof" "uri" 1 "SYM" 0).2) ∧
    ((swap sampleProvider failingAmmEnv SwapType.buy 10 1).1 =
        COutcome.threw (Err.sdk 8) ∧
      CAction.logError "Error swapping tokens:" (Err.sdk 8) ∈
        (swap sampleProvider failingAmmEnv SwapType.buy 10 1).2) := by
  have h := amm_client_errors_logged_and_rethrown sampleProvider
    failingAmmEnv "pof" "uri" "SYM" 1 0 10 1 SwapType.buy
    ⟨"autocrat-prog"⟩ ⟨⟨"treasury"⟩, ⟨"dao-mint"⟩, 7, 9⟩
    ⟨⟨"base-mint"⟩, "BASE"⟩ ⟨⟨"quote-mint"⟩, "QUOTE"⟩
    rfl rfl rfl rfl rfl
  exact ⟨h.2.1 (Err.sdk 7) ⟨0⟩ (by decide) rfl rfl rfl,
    h.2.2.2 (Err.sdk 8) ⟨⟨"derived-pda"⟩⟩ rfl rfl⟩

/-- C4 counterexample: with every environment call succeeding (no SDK or
RPC error at all), `createAmm` still throws an error of its own making —
the validation error it originates when the base and quote mints
coincide — so not every raised error is a propagated SDK/RPC error, and
the operation does perform its own invariant check on token data. -/
theorem createAmm_originates_validation_error :
    (createAmm sampleProviderEqualMints benignAmmEnv "pof" "uri" 1 "SYM"
        0).1 =
      COutcome.threw (Err.made "Base and quote mints must be different") ∧
    (Err.made "Base and quote mints must be different").isSdk = false ∧
    benignAmmEnv.createAmmResult = Except.ok () ∧
    (∀ k, benignAmmEnv.mintFetch k = Except.ok ⟨0⟩) ∧
    (∀ k, benignAmmEnv.getAmm k = Except.ok ⟨k⟩) ∧
    benignAmmEnv.swapResult = Except.ok () :=
  ⟨by decide, rfl, rfl, fun k => rfl, fun k => rfl, rfl⟩

/-- C4 (amended): every error `swap` raises is a propagated error of a
wrapped SDK call (`getAmm` or `ammClient.swap`); every error `createAmm`
raises is either a propagated error of a wrapped SDK call (`mint.fetch`
or `ammClient.createAmm`) or one of exactly two validation errors
`createAmm` originates itself from checks on token-mint data. -/
theorem thrown_errors_sdk_or_createAmm_validation
    (p : ProviderDeps) (env : AmmEnv) (pof uri symbol : String)
    (proposalNumber : Nat) (a inputAmount outputAmountMin : Int)
    (st : SwapType) (e : Err) :
    ((swap p env st inputAmount outputAmountMin).1 = COutcome.threw e →
      (∃ k, env.getAmm k = .error e) ∨ env.swapResult = .error e) ∧
    ((createAmm p env pof uri proposalNumber symbol a).1 =
        COutcome.threw e →
      (∃ k, env.mintFetch k = .error e) ∨ env.createAmmResult = .error e ∨
        e = Err.made "Base and quote mints must be different" ∨
        e = Err.made "Base mint must have a supply of 0") := by
  constructor
  · intro h
    cases h1 : p.autocratProgram <;> cases h2 : p.daoState <;>
      cases h3 : p.daoTokens.bind (dictGet · "baseToken") <;>
      cases h4 : p.daoTokens.bind (dictGet · "quoteToken") <;>
      cases h5 : p.providerWallet <;>
      simp [swap, h1, h2, h3, h4, h5] at h
    case some.some.some.some.true bt qt =>
      rcases hg : env.getAmm (env.findProgramAddress
          [Seed.str "amm__", Seed.key bt.publicKey, Seed.key qt.publicKey]
          AMM_PROGRAM_ID) with eg | amm
      · rw [hg] at h
        simp at h
        exact Or.inl ⟨_, by rw [hg, h]⟩
      · rw [hg] at h
        rcases hs : env.swapResult with es | u
        · rw [hs] at h
          simp at h
          exact Or.inr (by rw [h])
        · rw [hs] at h
          simp at h
  · intro h
    cases h1 : p.autocratProgram <;> cases h2 : p.daoState <;>
      cases h3 : p.daoTokens.bind (dictGet · "baseToken") <;>
      cases h4 : p.daoTokens.bind (dictGet · "quoteToken") <;>
      cases h5 : p.providerWallet <;>
      simp [createAmm, h1, h2, h3, h4, h5] at h
    case some.some.some.some.true bt qt =>
      by_cases heq : bt.publicKey = qt.publicKey
      · simp [heq] at h
        exact Or.inr (Or.inr (Or.inl h.symm))
      · simp [heq] at h
        rcases hf : env.mintFetch bt.publicKey with ef | m
        · rw [hf] at h
          simp at h
          exact Or.inl ⟨_, by rw [hf, h]⟩
        · rw [hf] at h
          by_cases hsup : m.supply = 0
          · simp [hsup] at h
            rcases hc : env.createAmmResult with ec | u
            · rw [hc] at h
              simp at h
              exact Or.inr (Or.inl (by rw [h]))
            · rw [hc] at h
              simp at h
          · simp [hsup] at h
            exact Or.inr (Or.inr (Or.inr h.symm))

/-- Witness for the amended C4 at concrete inputs. -/
theorem thrown_errors_sdk_or_createAmm_validation_witness :
    ((∃ k, failingAmmEnv.getAmm k = Except.error (Err.sdk 8)) ∨
      failingAmmEnv.swapResult = Except.error (Err.sdk 8)) ∧
    ((∃ k, benignAmmEnv.mintFetch k =
        Except.error (Err.made "Base and quote mints must be different")) ∨
      benignAmmEnv.createAmmResult =
        Except.error (Err.made "Base and quote mints must be different") ∨
      Err.made "Base and quote mints must be different" =
        Err.made "Base and quote mints must be different" ∨
      Err.made "Base and quote mints must be different" =
        Err.made "Base mint must have a supply of 0") := by
  constructor
  · exact (thrown_errors_sdk_or_createAmm_validation sampleProvider
      failingAmmEnv "pof" "uri" "SYM" 1 0 10 1 SwapType.buy
      (Err.sdk 8)).1 (by decide)
  · exact (thrown_errors_sdk_or_createAmm_validation
      sampleProviderEqualMints benignAmmEnv "pof" "uri" "SYM" 1 0 10 1
      SwapType.buy
      (Err.made "Base and quote mints must be different")).2 (by decide)

/-- Concrete fetched proposal list, for witnesses. -/
def sampleRawProposals : List RawProposal :=
  [⟨⟨"p1"⟩, ⟨1⟩, none, none⟩, ⟨⟨"p3"⟩, ⟨3⟩, some "T3", none⟩,
   ⟨⟨"p2"⟩, ⟨2⟩, none, some "D"⟩]

/-- Concrete per-network default token dictionary, for witnesses. -/
def sampleDefaultTokens : TokensDict :=
  [("meta", ⟨⟨"meta-mint"⟩, "META"⟩), ("usdc", ⟨⟨"usdc-mint"⟩, "USDC"⟩)]

/-- Concrete static token dictionary, for witnesses. -/
def sampleStaticTokens : TokensDict := [("sol", ⟨⟨"sol-mint"⟩, "SOL"⟩)]

/-- C5: the active DAO is the fetched element whose public key equals the
hard-coded head key when one exists (the first such element), otherwise
the first element of a non-empty fetched list; `daoKey`,
`daoTreasuryKey` and `daoState` are its `publicKey`, `account.treasury`
and `account`, and all are `undefined` when no list has been fetched. -/
theorem dao_selection_resolves_active_dao
    (daos : Option (List DaoListItem)) (target : PubKey) :
    (∀ ds, daos = some ds →
      ((∃ d ∈ ds, d.publicKey = target) →
        ∃ d0, selectedDao daos target = some d0 ∧ d0 ∈ ds ∧
          d0.publicKey = target) ∧
      ((∀ d ∈ ds, d.publicKey ≠ target) →
        selectedDao daos target = ds.head?)) ∧
    daoKey daos target = (selectedDao daos target).map (·.publicKey) ∧
    daoTreasuryKey daos target =
      (selectedDao daos target).map (·.account.treasury) ∧
    daoStateView daos target = (selectedDao daos target).map (·.account) ∧
    (daos = none → daoKey daos target = none ∧
      daoTreasuryKey daos target = none ∧ daoStateView daos target = none) := by
  refine ⟨fun ds hds => ⟨fun hex => ?_, fun hnone => ?_⟩, rfl, rfl, rfl,
    fun hn => by simp [daoKey, daoTreasuryKey, daoStateView, selectedDao, hn]⟩
  · have : (ds.find? (fun dao => dao.publicKey == target)).isSome := by
      rw [List.find?_isSome]
      obtain ⟨d, hd, hdk⟩ := hex
      exact ⟨d, hd, by simp [hdk]⟩
    obtain ⟨d0, hd0⟩ := Option.isSome_iff_exists.mp this
    refine ⟨d0, ?_, List.mem_of_find?_eq_some hd0, ?_⟩
    · simp [selectedDao, hds, hd0]
    · have := List.find?_some hd0
      simpa using this
  · have hfind : ds.find? (fun dao => dao.publicKey == target) = none := by
      rw [List.find?_eq_none]
      intro d hd
      simp [hnone d hd]
    simp [selectedDao, hds, hfind]

/-- Witness for C5 at a concrete fetched list: the second element matches
the hard-coded key and is selected. -/
theorem dao_selection_resolves_active_dao_witness :
    (∃ d0, selectedDao
        (some [⟨⟨"dao-a"⟩, ⟨⟨"ta"⟩, ⟨"ma"⟩, 0, 0⟩⟩,
               ⟨⟨"dao-b"⟩, ⟨⟨"tb"⟩, ⟨"mb"⟩, 0, 0⟩⟩]) ⟨"dao-b"⟩ = some d0 ∧
      d0 ∈ [⟨⟨"dao-a"⟩, ⟨⟨"ta"⟩, ⟨"ma"⟩, 0, 0⟩⟩,
            ⟨⟨"dao-b"⟩, ⟨⟨"tb"⟩, ⟨"mb"⟩, 0, 0⟩⟩] ∧
      d0.publicKey = ⟨"dao-b"⟩) ∧
    daoKey none ⟨"dao-b"⟩ = none := by
  have h := dao_selection_resolves_active_dao
    (some [⟨⟨"dao-a"⟩, ⟨⟨"ta"⟩, ⟨"ma"⟩, 0, 0⟩⟩,
           ⟨⟨"dao-b"⟩, ⟨⟨"tb"⟩, ⟨"mb"⟩, 0, 0⟩⟩]) ⟨"dao-b"⟩
  have h2 := dao_selection_resolves_active_dao none ⟨"dao-b"⟩
  exact ⟨(h.1 _ rfl).1 ⟨⟨⟨"dao-b"⟩, ⟨⟨"tb"⟩, ⟨"mb"⟩, 0, 0⟩⟩, by decide, rfl⟩,
    (h2.2.2.2.2 rfl).1⟩

/-- C6: with the preconditions resolved and the AMM fetch succeeding,
`swap` first derives the program-derived address of the seeds
`['amm__', base mint, quote mint]` under `AMM_PROGRAM_ID`, then fetches
that AMM, then calls `ammClient.swap` with the fetched AMM's public key
and the three arguments passed through unchanged. -/
theorem swap_derives_pda_and_delegates
    (p : ProviderDeps) (env : AmmEnv) (st : SwapType)
    (inputAmount outputAmountMin : Int) (programId : PubKey)
    (ds : DaoState) (bt qt : Token) (amm : Amm)
    (hprog : p.autocratProgram = some programId)
    (hds : p.daoState = some ds)
    (hbt : p.daoTokens.bind (dictGet · "baseToken") = some bt)
    (hqt : p.daoTokens.bind (dictGet · "quoteToken") = some qt)
    (hw : p.providerWallet = true)
    (hamm : env.getAmm (env.findProgramAddress
        [Seed.str "amm__", Seed.key bt.publicKey, Seed.key qt.publicKey]
        AMM_PROGRAM_ID) = .ok amm) :
    (swap p env st inputAmount outputAmountMin).2.take 3 =
      [CAction.findPDA
         [Seed.str "amm__", Seed.key bt.publicKey, Seed.key qt.publicKey]
         AMM_PROGRAM_ID
         (env.findProgramAddress
           [Seed.str "amm__", Seed.key bt.publicKey, Seed.key qt.publicKey]
           AMM_PROGRAM_ID),
       CAction.clientGetAmm
         (env.findProgramAddress
           [Seed.str "amm__", Seed.key bt.publicKey, Seed.key qt.publicKey]
           AMM_PROGRAM_ID),
       CAction.clientSwap amm.publicKey st inputAmount outputAmountMin] := by
  cases hs : env.swapResult <;>
    simp [swap, hprog, hds, hbt, hqt, hw, hamm, hs]

/-- Witness for C6 at concrete inputs. -/
theorem swap_derives_pda_and_delegates_witness :
    (swap sampleProvider benignAmmEnv SwapType.sell 10 1).2.take 3 =
      [CAction.findPDA
         [Seed.str "amm__", Seed.key ⟨"base-mint"⟩, Seed.key ⟨"quote-mint"⟩]
         AMM_PROGRAM_ID ⟨"derived-pda"⟩,
       CAction.clientGetAmm ⟨"derived-pda"⟩,
       CAction.clientSwap ⟨"derived-pda"⟩ SwapType.sell 10 1] :=
  swap_derives_pda_and_delegates sampleProvider benignAmmEnv SwapType.sell
    10 1 ⟨"autocrat-prog"⟩ ⟨⟨"treasury"⟩, ⟨"dao-mint"⟩, 7, 9⟩
    ⟨⟨"base-mint"⟩, "BASE"⟩ ⟨⟨"quote-mint"⟩, "QUOTE"⟩ ⟨⟨"derived-pda"⟩⟩
    rfl rfl rfl rfl rfl rfl

/-- C7: in a precondition-satisfying run of `initializeProposal` the
latest blockhash is fetched exactly once, before the wallet signs; the
signed transaction's `recentBlockhash` is that blockhash; every
submission sets `skipPreflight` to `true`; and every confirmation awaits
the same blockhash and `lastValidBlockHeight` at the `confirmed`
commitment. -/
theorem blockhash_once_and_confirmation_params
    (d : HookDeps) (env : InitEnv) (url : String)
    (instr : ProposalInstruction) (w : WalletState) (pk : PubKey)
    (hw : d.wallet = some w) (hpk : w.publicKey = some pk)
    (hsign : w.signAllTransactions = true)
    (hb : d.baseToken.isSome) (hq : d.quoteToken.isSome)
    (ht : d.daoTreasuryKey.isSome) (hp : d.programPresent = true) :
    ∃ t, initializeProposal d env url instr = (InitOutcome.completed, t) ∧
      (t.filter Action.isBlockhashFetch).length = 1 ∧
      t.get? 1 = some (Action.getLatestBlockhash env.blockhash
        env.lastValidBlockHeight) ∧
      (∃ txs, t.get? 2 = some (Action.signAllTransactions txs) ∧
        ∀ tx ∈ txs, tx.recentBlockhash = some env.blockhash) ∧
      (∀ tx sp sig, Action.sendRawTransaction tx sp sig ∈ t →
        sp = true ∧ tx.recentBlockhash = some env.blockhash) ∧
      (∀ sig bh lvbh c, Action.confirmTransaction sig bh lvbh c ∈ t →
        bh = env.blockhash ∧ lvbh = env.lastValidBlockHeight ∧
          c = "confirmed") := by
  obtain ⟨bt, hbt⟩ := Option.isSome_iff_exists.mp hb
  obtain ⟨qt, hqt⟩ := Option.isSome_iff_exists.mp hq
  obtain ⟨tr, htr⟩ := Option.isSome_iff_exists.mp ht
  refine ⟨[Action.generateKeypair env.newKeypair,
    Action.getLatestBlockhash env.blockhash env.lastValidBlockHeight,
    Action.signAllTransactions
      [{ instructions :=
           [Instr.createAccount env.newKeypair 1500,
            Instr.initProposal
              { descriptionUrl := url, instruction := instr,
                passLpTokensToLock := 0, failLpTokensToLock := 0,
                nonce := 0 }
              { proposal := env.newKeypair, dao := d.daoKey,
                failAmm := env.failAmm, passAmm := env.passAmm,
                proposer := pk }],
         feePayer := some pk,
         recentBlockhash := some env.blockhash,
         keypairSigners := [env.newKeypair],
         walletSigned := true }],
    Action.sendRawTransaction
      { instructions :=
           [Instr.createAccount env.newKeypair 1500,
            Instr.initProposal
              { descriptionUrl := url, instruction := instr,
                passLpTokensToLock := 0, failLpTokensToLock := 0,
                nonce := 0 }
              { proposal := env.newKeypair, dao := d.daoKey,
                failAmm := env.failAmm, passAmm := env.passAmm,
                proposer := pk }],
         feePayer := some pk,
         recentBlockhash := some env.blockhash,
         keypairSigners := [env.newKeypair],
         walletSigned := true }
      true env.sigFor,
    Action.confirmTransaction env.sigFor env.blockhash
      env.lastValidBlockHeight "confirmed"],
    by simp [initializeProposal, hw, hpk, hsign, hbt, hqt, htr, hp],
    ?_, ?_, ?_, ?_, ?_⟩
  · simp [Action.isBlockhashFetch]
  · rfl
  · exact ⟨_, rfl, by simp⟩
  · intro tx sp sig hmem
    simp only [List.mem_cons, List.not_mem_nil, or_false] at hmem
    rcases hmem with h | h | h | h | h <;> simp_all
  · intro sig bh lvbh c hmem
    simp only [List.mem_cons, List.not_mem_nil, or_false] at hmem
    rcases hmem with h | h | h | h | h <;> simp_all

/-- Witness for C7 at concrete inputs. -/
theorem blockhash_once_and_confirmation_params_witness :
    ∃ t, initializeProposal sampleDeps sampleInitEnv "https://example.org"
        ⟨42⟩ = (InitOutcome.completed, t) ∧
      (t.filter Action.isBlockhashFetch).length = 1 ∧
      t.get? 1 = some (Action.getLatestBlockhash sampleInitEnv.blockhash
        sampleInitEnv.lastValidBlockHeight) ∧
      (∃ txs, t.get? 2 = some (Action.signAllTransactions txs) ∧
        ∀ tx ∈ txs, tx.recentBlockhash = some sampleInitEnv.blockhash) ∧
      (∀ tx sp sig, Action.sendRawTransaction tx sp sig ∈ t →
        sp = true ∧ tx.recentBlockhash = some sampleInitEnv.blockhash) ∧
      (∀ sig bh lvbh c, Action.confirmTransaction sig bh lvbh c ∈ t →
        bh = sampleInitEnv.blockhash ∧
          lvbh = sampleInitEnv.lastValidBlockHeight ∧ c = "confirmed") :=
  blockhash_once_and_confirmation_params sampleDeps sampleInitEnv
    "https://example.org" ⟨42⟩ sampleWallet ⟨"wallet-pk"⟩
    rfl rfl rfl rfl rfl rfl rfl

/-- C8: the version selected by the context's `setProgramVersion` is
`AUTOCRAT_VERSIONS[n]` when `n` is below the array length and
`AUTOCRAT_VERSIONS[0]` otherwise: an in-range non-negative `n` selects
that version, an `n` at or above the length falls back to index 0, and a
negative `n` is used directly as an index, yielding `undefined`. -/
theorem setProgramVersionArg_clamps_upper_bound_only
    (versions : List ProgramVersion) (n : Int) :
    (0 ≤ n → n < (versions.length : Int) →
      setProgramVersionArg versions n = versions.get? n.toNat) ∧
    ((versions.length : Int) ≤ n →
      setProgramVersionArg versions n = versions.get? 0) ∧
    (n < 0 → setProgramVersionArg versions n = none) := by
  refine ⟨fun h0 hlt => ?_, fun hge => ?_, fun hneg => ?_⟩
  · simp [setProgramVersionArg, jsIndex, hlt, h0]
  · have : ¬ n < (versions.length : Int) := not_lt.mpr hge
    simp [setProgramVersionArg, jsIndex, this]
  · have hlt : n < (versions.length : Int) :=
      lt_of_lt_of_le hneg (by positivity)
    have : ¬ 0 ≤ n := not_le.mpr hneg
    simp [setProgramVersionArg, jsIndex, hlt, this]

/-- Witness for C8 on a concrete two-element versions array. -/
theorem setProgramVersionArg_clamps_upper_bound_only_witness :
    setProgramVersionArg [⟨"V0.2"⟩, ⟨"V0.3"⟩] 1 = some ⟨"V0.3"⟩ ∧
    setProgramVersionArg [⟨"V0.2"⟩, ⟨"V0.3"⟩] 5 = some ⟨"V0.2"⟩ ∧
    setProgramVersionArg [⟨"V0.2"⟩, ⟨"V0.3"⟩] (-1) = none := by
  have h1 := setProgramVersionArg_clamps_upper_bound_only
    [⟨"V0.2"⟩, ⟨"V0.3"⟩] 1
  have h5 := setProgramVersionArg_clamps_upper_bound_only
    [⟨"V0.2"⟩, ⟨"V0.3"⟩] 5
  have hn := setProgramVersionArg_clamps_upper_bound_only
    [⟨"V0.2"⟩, ⟨"V0.3"⟩] (-1)
  exact ⟨(h1.1 (by decide) (by decide)).trans rfl,
    (h5.2.1 (by decide)).trans rfl, hn.2.2 (by decide)⟩

/-- C9: the proposals exposed by the context are the fetched list sorted
in non-increasing order of `account.number` (as a permutation of the
exposed records), and any entry whose underlying record carries no
`title` or `description` field is exposed with title
`Proposal <number>` and an empty description. -/
theorem proposals_sorted_desc_with_default_fields
    (raws : List RawProposal) :
    List.Pairwise
      (fun a b : ProposalView => b.account.number ≤ a.account.number)
      (proposalsView (some raws)) ∧
    (proposalsView (some raws)).Perm (raws.map exposeProposal) ∧
    (∀ q ∈ proposalsView (some raws), ∃ p ∈ raws, q = exposeProposal p) ∧
    (∀ p : RawProposal, p.title = none →
      (exposeProposal p).title = "Proposal " ++ toString p.account.number) ∧
    (∀ p : RawProposal, p.description = none →
      (exposeProposal p).description = "") := by
  have htrans : ∀ a b c : RawProposal, propLe a b → propLe b c → propLe a c := by
    intro a b c hab hbc
    simp only [propLe, decide_eq_true_eq] at *
    omega
  have htotal : ∀ a b : RawProposal, propLe a b || propLe b a := by
    intro a b
    simp only [propLe, Bool.or_eq_true, decide_eq_true_eq]
    omega
  have hsort := List.sorted_mergeSort htrans htotal raws
  have hperm : (proposalsView (some raws)).Perm (raws.map exposeProposal) := by
    simpa [proposalsView] using (List.mergeSort_perm raws propLe).map exposeProposal
  refine ⟨?_, hperm, fun q hq => ?_, fun p hp => by simp [exposeProposal, hp],
    fun p hp => by simp [exposeProposal, hp]⟩
  · have : ((raws.mergeSort propLe).map exposeProposal).Pairwise
        fun a b : ProposalView => b.account.number ≤ a.account.number := by
      rw [List.pairwise_map]
      refine hsort.imp ?_
      intro a b hab
      simpa [exposeProposal, propLe] using hab
    simpa [proposalsView] using this
  · have hq2 : q ∈ raws.map exposeProposal := hperm.mem_iff.mp hq
    obtain ⟨p, hp, hpe⟩ := List.mem_map.mp hq2
    exact ⟨p, hp, hpe.symm⟩

/-- Witness for C9 at a concrete fetched proposal list. -/
theorem proposals_sorted_desc_with_default_fields_witness :
    List.Pairwise
      (fun a b : ProposalView => b.account.number ≤ a.account.number)
      (proposalsView (some sampleRawProposals)) ∧
    (∃ p ∈ sampleRawProposals,
      (⟨⟨"p2"⟩, ⟨2⟩, "Proposal 2", "D"⟩ : ProposalView) = exposeProposal p) ∧
    (exposeProposal ⟨⟨"p1"⟩, ⟨1⟩, none, none⟩).title =
      "Proposal " ++ toString (1 : Nat) ∧
    (exposeProposal ⟨⟨"p1"⟩, ⟨1⟩, none, none⟩).description = "" := by
  have h := proposals_sorted_desc_with_default_fields sampleRawProposals
  exact ⟨h.1, h.2.2.1 ⟨⟨"p2"⟩, ⟨2⟩, "Proposal 2", "D"⟩
      (h.2.1.mem_iff.mpr (by decide)),
    h.2.2.2.1 _ rfl, h.2.2.2.2 _ rfl⟩

/-- C10: when the resolved DAO state's `tokenMint` matches no token of
the default dictionary for the current network, the token-resolution
effect throws a runtime TypeError (indexing the empty filter result)
instead of completing, and in particular never updates the stored
`daoTokens`. -/
theorem token_effect_throws_on_unknown_mint
    (ds : DaoState) (defaultTokens staticTokens daoTokens : TokensDict)
    (label network : String)
    (h : ∀ kv ∈ defaultTokens, kv.2.publicKey ≠ ds.tokenMint) :
    tokenResolutionEffect (some ds) defaultTokens staticTokens daoTokens
        label network = Except.error JsError.typeError ∧
    ∀ d, tokenResolutionEffect (some ds) defaultTokens staticTokens
        daoTokens label network ≠ Except.ok (some d) := by
  have hfilter :
      defaultTokens.filter (fun t => t.2.publicKey == ds.tokenMint) = [] := by
    rw [List.filter_eq_nil_iff]
    intro kv hkv
    simp [h kv hkv]
  constructor
  · simp [tokenResolutionEffect, hfilter]
  · intro d
    simp [tokenResolutionEffect, hfilter]

/-- Witness for C10 at a concrete unknown mint. -/
theorem token_effect_throws_on_unknown_mint_witness :
    tokenResolutionEffect (some ⟨⟨"treasury"⟩, ⟨"unknown-mint"⟩, 7, 9⟩)
        sampleDefaultTokens sampleStaticTokens [] "V0.3" "mainnet" =
      Except.error JsError.typeError := by
  exact (token_effect_throws_on_unknown_mint
    ⟨⟨"treasury"⟩, ⟨"unknown-mint"⟩, 7, 9⟩ sampleDefaultTokens
    sampleStaticTokens [] "V0.3" "mainnet" (by decide)).1

end Futarchy
